import Mathlib

/-!
Shallow embedding of the configuration loader/validator and receiver
lifecycle of the opentelemetry-service repository.

The Go source embedded here:
* `config/config.go` — `decodeTypeAndName`, `loadPipelines` (type switch),
  `validateConfig` and its helpers (`validatePipelineReceivers`,
  `validatePipelineExporters`, `validatePipelineProcessors`,
  `validatePipelines`, `validateReceivers`, `validateExporters`,
  `validateProcessors`);
* `config/configmodels/configmodels.go` — the data model (`DataType`,
  `GetString`, `Pipeline`, the common settings with `Disabled` /
  `IsEnabled`);
* `receiver/opencensusreceiver/opencensus.go` — the OpenCensus receiver
  lifecycle (`start`, `stop`, the `sync.Once` guards, the public
  `Start*Reception` / `Stop*Reception` wrappers, `httpServer` CORS wiring);
* `receiver/vmmetricsreceiver` — the VM-metrics receiver lifecycle.

Go maps are modelled as association lists (keys are unique: the loader
rejects duplicate names); map iteration is modelled by list order, which
is a faithful determinization because per-pipeline validation of one
pipeline neither reads nor writes any other pipeline. Logged
`logger.Info` calls are modelled by explicitly returned `LogEntry` lists.
-/

namespace Otel

/-- The set of characters `unicode.IsSpace` accepts in the Latin-1 range;
`strings.TrimSpace` trims exactly these from both ends for the inputs the
configuration format uses. -/
def isSpaceChar (c : Char) : Bool :=
  c = ' ' || c = '\t' || c = '\n' || (c = Char.ofNat 11) || (c = Char.ofNat 12) ||
  c = '\r' || (c = Char.ofNat 133) || (c = Char.ofNat 160)

/-- `strings.TrimSpace` on a character list: drop spaces from both ends. -/
def trimSpace (s : List Char) : List Char :=
  ((s.dropWhile isSpaceChar).reverse.dropWhile isSpaceChar).reverse

/-- `strings.SplitN(key, "/", 2)`: the part before the first `/`, and,
when a `/` is present, everything after it (`none` when absent). -/
def splitN2 : List Char → List Char × Option (List Char)
  | [] => ([], none)
  | c :: rest =>
    if c = '/' then ([], some rest)
    else
      let r := splitN2 rest
      (c :: r.1, r.2)

/-- `decodeTypeAndName` from config.go: decode a `type[/name]` key into
`(type, fullName)`; `none` models the error returns. -/
def decodeTypeAndName (key : String) : Option (String × String) :=
  let items := splitN2 key.data
  let typeStr := trimSpace items.1
  if typeStr = [] then
    none
  else
    match items.2 with
    | some rest =>
      let nameSuffix := trimSpace rest
      if nameSuffix = [] then
        none
      else
        some (typeStr.asString, (typeStr ++ '/' :: nameSuffix).asString)
    | none => some (typeStr.asString, typeStr.asString)

/-- `DataType` is an `int` in Go; the `iota` block skips 0. -/
def tracesDataType : Nat := 1

/-- `MetricsDataType`, the second `iota` value. -/
def metricsDataType : Nat := 2

/-- `TracesDataTypeStr`. -/
def tracesDataTypeStr : String := "traces"

/-- `MetricsDataTypeStr`. -/
def metricsDataTypeStr : String := "metrics"

/-- `DataType.GetString`: `none` models the `default:` branch, which
panics with "unknown data type". -/
def getString (dataType : Nat) : Option String :=
  if dataType = tracesDataType then some tracesDataTypeStr
  else if dataType = metricsDataType then some metricsDataTypeStr
  else none

/-- The `switch typeStr` in `loadPipelines` that assigns
`pipelineCfg.InputType`; `none` models the `errInvalidPipelineType`
return. -/
def pipelineInputTypeFor (typeStr : String) : Option Nat :=
  if typeStr = tracesDataTypeStr then some tracesDataType
  else if typeStr = metricsDataTypeStr then some metricsDataType
  else none

/-- The fields of the common receiver/exporter/processor settings that
validation reads (`Type()`, `Name()`, `IsEnabled()`). -/
structure EntityConfig where
  typeVal : String
  nameVal : String
  disabled : Bool
  deriving DecidableEq, Repr

/-- `IsEnabled` from configmodels.go: the entity is enabled when not
disabled. -/
def EntityConfig.isEnabled (e : EntityConfig) : Bool := !e.disabled

/-- Go map lookup `m[ref]` on the association-list model; `none` models
`nil`. -/
def findByName (m : List (String × EntityConfig)) (ref : String) : Option EntityConfig :=
  (m.find? fun kv => kv.1 = ref).map (·.2)

/-- A pipeline reference is enabled when its target component is. Only
reached by the code after existence of the target was checked. -/
def isEnabledIn (m : List (String × EntityConfig)) (ref : String) : Bool :=
  match findByName m ref with
  | some e => e.isEnabled
  | none => false

/-- One `logger.Info` record emitted when a disabled reference is dropped:
the component kind, the pipeline name and the dropped reference. -/
structure LogEntry where
  kind : String
  pipeline : String
  component : String
  deriving DecidableEq, Repr

/-- `configmodels.Pipeline`. -/
structure Pipeline where
  name : String
  inputType : Nat
  receivers : List String
  processors : List String
  exporters : List String
  deriving DecidableEq, Repr

/-- `configmodels.Config`: the four top-level maps. -/
structure Config where
  receivers : List (String × EntityConfig)
  exporters : List (String × EntityConfig)
  processors : List (String × EntityConfig)
  pipelines : List Pipeline
  deriving DecidableEq, Repr

/-- Error codes from the `configErrorCode` iota block in config.go. -/
inductive ConfigErrorCode where
  | invalidTypeAndNameKey
  | unknownReceiverType
  | unknownExporterType
  | unknownProcessorType
  | invalidPipelineType
  | duplicateReceiverName
  | duplicateExporterName
  | duplicateProcessorName
  | duplicatePipelineName
  | missingPipelines
  | pipelineMustHaveReceiver
  | pipelineMustHaveExporter
  | pipelineMustHaveProcessors
  | pipelineReceiverNotExists
  | pipelineProcessorNotExists
  | pipelineExporterNotExists
  | metricPipelineCannotHaveProcessors
  | unmarshalError
  | missingReceivers
  | missingExporters
  deriving DecidableEq, Repr

/-- The "remove disabled" loop shared by the three pipeline validators:
`rs := list[:0]; for ref := range list { if enabled keep else log }`,
with explicit accumulators for the kept references and the log. -/
def removeDisabledLoop (kind pname : String) (m : List (String × EntityConfig)) :
    List String → List String → List LogEntry → List String × List LogEntry
  | [], rs, logs => (rs, logs)
  | ref :: rest, rs, logs =>
    if isEnabledIn m ref then
      removeDisabledLoop kind pname m rest (rs ++ [ref]) logs
    else
      removeDisabledLoop kind pname m rest rs (logs ++ [⟨kind, pname, ref⟩])

/-- Entry point of the removal loop with empty accumulators. -/
def removeDisabled (kind pname : String) (m : List (String × EntityConfig))
    (refs : List String) : List String × List LogEntry :=
  removeDisabledLoop kind pname m refs [] []

/-- `validatePipelineReceivers`: reject an empty receiver list, then a
reference to an undefined receiver, then drop disabled references. -/
def validatePipelineReceivers (cfg : Config) (p : Pipeline) :
    Except ConfigErrorCode (Pipeline × List LogEntry) :=
  if p.receivers = [] then
    .error .pipelineMustHaveReceiver
  else if p.receivers.all fun ref => (findByName cfg.receivers ref).isSome then
    let rl := removeDisabled "receiver" p.name cfg.receivers p.receivers
    .ok ({ p with receivers := rl.1 }, rl.2)
  else
    .error .pipelineReceiverNotExists

/-- `validatePipelineExporters`: same shape as the receiver check. -/
def validatePipelineExporters (cfg : Config) (p : Pipeline) :
    Except ConfigErrorCode (Pipeline × List LogEntry) :=
  if p.exporters = [] then
    .error .pipelineMustHaveExporter
  else if p.exporters.all fun ref => (findByName cfg.exporters ref).isSome then
    let rl := removeDisabled "exporter" p.name cfg.exporters p.exporters
    .ok ({ p with exporters := rl.1 }, rl.2)
  else
    .error .pipelineExporterNotExists

/-- `validatePipelineProcessors`: the per-data-type processor-count rules,
then reference existence, then disabled filtering. -/
def validatePipelineProcessors (cfg : Config) (p : Pipeline) :
    Except ConfigErrorCode (Pipeline × List LogEntry) :=
  if p.inputType = tracesDataType ∧ p.processors = [] then
    .error .pipelineMustHaveProcessors
  else if p.inputType = metricsDataType ∧ p.processors ≠ [] then
    .error .metricPipelineCannotHaveProcessors
  else if p.processors.all fun ref => (findByName cfg.processors ref).isSome then
    let rl := removeDisabled "processor" p.name cfg.processors p.processors
    .ok ({ p with processors := rl.1 }, rl.2)
  else
    .error .pipelineProcessorNotExists

/-- `validatePipeline`: the three per-pipeline checks in source order,
threading the in-place pipeline mutation and collecting the log. -/
def validatePipeline (cfg : Config) (p : Pipeline) :
    Except ConfigErrorCode (Pipeline × List LogEntry) :=
  match validatePipelineReceivers cfg p with
  | .error e => .error e
  | .ok (p1, l1) =>
    match validatePipelineExporters cfg p1 with
    | .error e => .error e
    | .ok (p2, l2) =>
      match validatePipelineProcessors cfg p2 with
      | .error e => .error e
      | .ok (p3, l3) => .ok (p3, l1 ++ l2 ++ l3)

/-- The `for _, pipeline := range cfg.Pipelines` loop of
`validatePipelines`, returning the first error or all updated
pipelines. -/
def validatePipelinesLoop (cfg : Config) :
    List Pipeline → Except ConfigErrorCode (List Pipeline × List LogEntry)
  | [] => .ok ([], [])
  | p :: rest =>
    match validatePipeline cfg p with
    | .error e => .error e
    | .ok (p1, l1) =>
      match validatePipelinesLoop cfg rest with
      | .error e => .error e
      | .ok (ps, ls) => .ok (p1 :: ps, l1 ++ ls)

/-- `validatePipelines`: at least one pipeline, then each pipeline in
turn. -/
def validatePipelines (cfg : Config) :
    Except ConfigErrorCode (List Pipeline × List LogEntry) :=
  if cfg.pipelines.length < 1 then .error .missingPipelines
  else validatePipelinesLoop cfg cfg.pipelines

/-- `validateReceivers`: delete disabled receivers from the top-level map
and require that at least one enabled receiver remains. -/
def validateReceivers (cfg : Config) : Except ConfigErrorCode Config :=
  let rs := cfg.receivers.filter fun kv => kv.2.isEnabled
  if rs.length = 0 then .error .missingReceivers
  else .ok { cfg with receivers := rs }

/-- `validateExporters`: delete disabled exporters and require that at
least one enabled exporter remains. -/
def validateExporters (cfg : Config) : Except ConfigErrorCode Config :=
  let es := cfg.exporters.filter fun kv => kv.2.isEnabled
  if es.length = 0 then .error .missingExporters
  else .ok { cfg with exporters := es }

/-- `validateProcessors`: delete disabled processors; never fails. -/
def validateProcessors (cfg : Config) : Config :=
  { cfg with processors := cfg.processors.filter fun kv => kv.2.isEnabled }

/-- `validateConfig`: pipelines, then receivers, then exporters, then
processors, stopping at the first error; the returned log collects the
dropped-reference records. -/
def validateConfig (cfg : Config) : Except ConfigErrorCode (Config × List LogEntry) :=
  match validatePipelines cfg with
  | .error e => .error e
  | .ok (ps, logs) =>
    let cfg1 := { cfg with pipelines := ps }
    match validateReceivers cfg1 with
    | .error e => .error e
    | .ok cfg2 =>
      match validateExporters cfg2 with
      | .error e => .error e
      | .ok cfg3 => .ok (validateProcessors cfg3, logs)

/-- The lifecycle signals: `errAlreadyStarted`, `errAlreadyStopped`, and
the "cannot start receiver: no consumers were specified" error of the
OpenCensus receiver's `start`. -/
inductive RecvError where
  | alreadyStarted
  | alreadyStopped
  | noConsumers
  deriving DecidableEq, Repr

/-- The VM-metrics receiver: the two `sync.Once` guards are the whole
observable lifecycle state (`StartCollection` / `StopCollection` of the
collector return nothing). -/
structure VMReceiver where
  startDone : Bool
  stopDone : Bool
  deriving DecidableEq, Repr

/-- A freshly constructed VM-metrics receiver: no `Once` has fired. -/
def VMReceiver.new : VMReceiver := ⟨false, false⟩

/-- `Receiver.StartMetricsReception` (vmmetricsreceiver): `err` starts as
`errAlreadyStarted` and is cleared inside the `startOnce.Do` body. -/
def VMReceiver.startMetricsReception (r : VMReceiver) : VMReceiver × Option RecvError :=
  if r.startDone then (r, some .alreadyStarted)
  else ({ r with startDone := true }, none)

/-- `Receiver.StopMetricsReception` (vmmetricsreceiver): `err` starts as
`errAlreadyStopped` and is cleared inside the `stopOnce.Do` body. -/
def VMReceiver.stopMetricsReception (r : VMReceiver) : VMReceiver × Option RecvError :=
  if r.stopDone then (r, some .alreadyStopped)
  else ({ r with stopDone := true }, none)

/-- Results of `n` consecutive `StopMetricsReception` calls on the
VM-metrics receiver, in call order. -/
def VMReceiver.stopResults (r : VMReceiver) : Nat → List (Option RecvError)
  | 0 => []
  | n + 1 =>
    let s := r.stopMetricsReception
    s.2 :: s.1.stopResults n

/-- Results of `n` consecutive `StartMetricsReception` calls on the
VM-metrics receiver, in call order. -/
def VMReceiver.startResults (r : VMReceiver) : Nat → List (Option RecvError)
  | 0 => []
  | n + 1 =>
    let s := r.startMetricsReception
    s.2 :: s.1.startResults n

/-- The HTTP handler installed by the OpenCensus receiver: either the bare
grpc-gateway mux, or that mux wrapped by `cors.New(co).Handler`. -/
inductive Handler where
  | gatewayMux
  | corsFilter (origins : List String) (inner : Handler)
  deriving DecidableEq, Repr

/-- Whether a CORS filter is present at the top of the handler chain. -/
def Handler.hasCORSFilter : Handler → Bool
  | .gatewayMux => false
  | .corsFilter _ _ => true

/-- The OpenCensus receiver: consumer presence, the four `sync.Once`
guards, the CORS origin list and the lazily built HTTP server. The
external collaborators (`octrace.New`, `ocmetrics.New`, the gRPC/HTTP
serve loops) are modelled as succeeding, which is the setting of every
lifecycle claim ("after a successful start"). -/
structure OCReceiver where
  hasTraceConsumer : Bool
  hasMetricsConsumer : Bool
  startTraceReceiverDone : Bool
  startMetricsReceiverDone : Bool
  startServerDone : Bool
  stopDone : Bool
  corsOrigins : List String
  serverHTTP : Option Handler
  deriving DecidableEq, Repr

/-- `New` (opencensusreceiver): CORS disabled by default unless an option
supplies origins; no `Once` has fired. -/
def OCReceiver.new (tc mc : Bool) (origins : List String) : OCReceiver :=
  ⟨tc, mc, false, false, false, false, origins, none⟩

/-- `registerTraceConsumer`: `err` starts as `errAlreadyStarted`; inside
`startTraceReceiverOnce.Do` the trace receiver is built and registered. -/
def OCReceiver.registerTraceConsumer (r : OCReceiver) : OCReceiver × Option RecvError :=
  if r.startTraceReceiverDone then (r, some .alreadyStarted)
  else ({ r with startTraceReceiverDone := true }, none)

/-- `registerMetricsConsumer`: the metrics analogue. -/
def OCReceiver.registerMetricsConsumer (r : OCReceiver) : OCReceiver × Option RecvError :=
  if r.startMetricsReceiverDone then (r, some .alreadyStarted)
  else ({ r with startMetricsReceiverDone := true }, none)

/-- `startServer`: `err` starts as `errAlreadyStarted`; inside
`startServerOnce.Do` the serve loops are launched (modelled as coming up
cleanly within the 1-second window). -/
def OCReceiver.startServer (r : OCReceiver) : OCReceiver × Option RecvError :=
  if r.startServerDone then (r, some .alreadyStarted)
  else ({ r with startServerDone := true }, none)

/-- The `err != nil && err != errAlreadyStarted` guards of `start`:
`errAlreadyStarted` from an inner step is swallowed. -/
def swallowAlreadyStarted (e : Option RecvError) : Option RecvError :=
  if e = some .alreadyStarted then none else e

/-- `Receiver.start` (opencensusreceiver): register the trace and metrics
consumers when present (ignoring `errAlreadyStarted`), fail when no
consumer was specified, then start the shared server (again ignoring
`errAlreadyStarted`). -/
def OCReceiver.start (r : OCReceiver) : OCReceiver × Option RecvError :=
  let s1 := if r.hasTraceConsumer then r.registerTraceConsumer else (r, none)
  match swallowAlreadyStarted s1.2 with
  | some e => (s1.1, some e)
  | none =>
    let s2 := if r.hasMetricsConsumer then s1.1.registerMetricsConsumer else (s1.1, none)
    match swallowAlreadyStarted s2.2 with
    | some e => (s2.1, some e)
    | none =>
      if !r.hasTraceConsumer && !r.hasMetricsConsumer then
        (s2.1, some .noConsumers)
      else
        let s3 := s2.1.startServer
        match swallowAlreadyStarted s3.2 with
        | some e => (s3.1, some e)
        | none => (s3.1, none)

/-- `StartTraceReception` just calls `start`. -/
def OCReceiver.startTraceReception (r : OCReceiver) : OCReceiver × Option RecvError :=
  r.start

/-- `StartMetricsReception` just calls `start`. -/
def OCReceiver.startMetricsReception (r : OCReceiver) : OCReceiver × Option RecvError :=
  r.start

/-- `Receiver.stop` (opencensusreceiver): `err` starts as
`errAlreadyStopped`; the `stopOnce.Do` body sets `err = nil` and closes
the servers and the listener, discarding their errors (`_ = ...Close()`). -/
def OCReceiver.stop (r : OCReceiver) : OCReceiver × Option RecvError :=
  if r.stopDone then (r, some .alreadyStopped)
  else ({ r with stopDone := true }, none)

/-- `StopTraceReception`: return `stop()`'s error unless it is
`errAlreadyStopped`, which maps to `nil`. -/
def OCReceiver.stopTraceReception (r : OCReceiver) : OCReceiver × Option RecvError :=
  let s := r.stop
  if s.2 = some .alreadyStopped then (s.1, none) else s

/-- `StopMetricsReception`: identical wrapper around `stop()`. -/
def OCReceiver.stopMetricsReception (r : OCReceiver) : OCReceiver × Option RecvError :=
  let s := r.stop
  if s.2 = some .alreadyStopped then (s.1, none) else s

/-- `Receiver.httpServer`: on first use build the handler — the gateway
mux, wrapped by a CORS filter exactly when the origin list is
non-empty — and cache it. -/
def OCReceiver.httpServer (r : OCReceiver) : OCReceiver × Handler :=
  match r.serverHTTP with
  | some h => (r, h)
  | none =>
    let mux := Handler.gatewayMux
    let mux := if r.corsOrigins.length > 0 then Handler.corsFilter r.corsOrigins mux else mux
    ({ r with serverHTTP := some mux }, mux)

/-! ### Concrete configurations used to instantiate the claims -/

/-- A configuration whose only pipeline references only a disabled
receiver, while an unrelated enabled receiver keeps the global check
happy. -/
def c1AllDisabledCfg : Config :=
  { receivers := [("r1", ⟨"opencensus", "r1", false⟩), ("r2", ⟨"opencensus", "r2", true⟩)]
    exporters := [("e1", ⟨"logging", "e1", false⟩)]
    processors := []
    pipelines := [⟨"t", metricsDataType, ["r2"], [], ["e1"]⟩] }

/-- What `validateConfig` makes of `c1AllDisabledCfg`: the pipeline
survives with an empty receiver list. -/
def c1AllDisabledAfter : Config :=
  { receivers := [("r1", ⟨"opencensus", "r1", false⟩)]
    exporters := [("e1", ⟨"logging", "e1", false⟩)]
    processors := []
    pipelines := [⟨"t", metricsDataType, [], [], ["e1"]⟩] }

/-- A small fully valid configuration. -/
def c1ValidCfg : Config :=
  { receivers := [("r", ⟨"opencensus", "r", false⟩)]
    exporters := [("e", ⟨"logging", "e", false⟩)]
    processors := []
    pipelines := [⟨"m", metricsDataType, ["r"], [], ["e"]⟩] }

/-- The disabled-pruning scenario: exporters `a` (enabled) and `b`
(disabled), one metrics pipeline listing both. -/
def c6Cfg : Config :=
  { receivers := [("r", ⟨"opencensus", "r", false⟩)]
    exporters := [("a", ⟨"logging", "a", false⟩), ("b", ⟨"logging", "b", true⟩)]
    processors := []
    pipelines := [⟨"m", metricsDataType, ["r"], [], ["a", "b"]⟩] }

/-- What `validateConfig` makes of `c6Cfg`: `b` is dropped from the
pipeline and from the top-level exporter map. -/
def c6After : Config :=
  { receivers := [("r", ⟨"opencensus", "r", false⟩)]
    exporters := [("a", ⟨"logging", "a", false⟩)]
    processors := []
    pipelines := [⟨"m", metricsDataType, ["r"], [], ["a"]⟩] }

/-! ### Characterization lemmas for the validators -/

/-- The removal loop appends kept references and log records to its
accumulators: kept references are the enabled ones in order, log records
the disabled ones in order. -/
theorem removeDisabledLoop_eq (k pn : String) (m : List (String × EntityConfig)) :
    ∀ (refs rs : List String) (logs : List LogEntry),
      removeDisabledLoop k pn m refs rs logs =
        (rs ++ refs.filter (isEnabledIn m),
         logs ++ (refs.filter fun r => !isEnabledIn m r).map fun r => ⟨k, pn, r⟩)
  | [], rs, logs => by simp [removeDisabledLoop]
  | ref :: rest, rs, logs => by
    cases h : isEnabledIn m ref with
    | true =>
      simp [removeDisabledLoop, h, removeDisabledLoop_eq k pn m rest, List.filter_cons]
    | false =>
      simp [removeDisabledLoop, h, removeDisabledLoop_eq k pn m rest, List.filter_cons]

/-- `removeDisabled` keeps exactly the enabled references, in order, and
logs exactly the disabled ones, in order. -/
theorem removeDisabled_eq (k pn : String) (m : List (String × EntityConfig))
    (refs : List String) :
    removeDisabled k pn m refs =
      (refs.filter (isEnabledIn m),
       (refs.filter fun r => !isEnabledIn m r).map fun r => ⟨k, pn, r⟩) := by
  simp [removeDisabled, removeDisabledLoop_eq]

/-- Success shape of the receiver check: non-empty list of resolvable
references yields the enabled-filtered pipeline plus one log record per
disabled reference. -/
theorem validatePipelineReceivers_ok (cfg : Config) (p : Pipeline)
    (h1 : p.receivers ≠ [])
    (h2 : (p.receivers.all fun ref => (findByName cfg.receivers ref).isSome) = true) :
    validatePipelineReceivers cfg p =
      .ok ({ p with receivers := p.receivers.filter (isEnabledIn cfg.receivers) },
        (p.receivers.filter fun r => !isEnabledIn cfg.receivers r).map
          fun r => ⟨"receiver", p.name, r⟩) := by
  unfold validatePipelineReceivers
  rw [if_neg h1, if_pos h2, removeDisabled_eq]

/-- Inversion of a successful receiver check. -/
theorem validatePipelineReceivers_ok_inv (cfg : Config) (p q : Pipeline)
    (logs : List LogEntry)
    (h : validatePipelineReceivers cfg p = .ok (q, logs)) :
    p.receivers ≠ [] ∧
    (∀ r ∈ p.receivers, (findByName cfg.receivers r).isSome = true) ∧
    q = { p with receivers := p.receivers.filter (isEnabledIn cfg.receivers) } ∧
    logs = (p.receivers.filter fun r => !isEnabledIn cfg.receivers r).map
      fun r => ⟨"receiver", p.name, r⟩ := by
  unfold validatePipelineReceivers at h
  split_ifs at h with h1 h2
  · rw [removeDisabled_eq] at h
    simp only [Except.ok.injEq, Prod.mk.injEq] at h
    exact ⟨h1, List.all_eq_true.mp h2, h.1.symm, h.2.symm⟩

/-- The receiver check yields `PipelineMustHaveReceiver` exactly on an
empty declared receiver list. -/
theorem validatePipelineReceivers_mustHave_iff (cfg : Config) (p : Pipeline) :
    validatePipelineReceivers cfg p = .error .pipelineMustHaveReceiver ↔
      p.receivers = [] := by
  unfold validatePipelineReceivers
  split_ifs with h1 h2 <;> simp [h1]

/-- A non-empty receiver list with an unresolvable reference yields
`PipelineReceiverNotExists`. -/
theorem validatePipelineReceivers_notExists (cfg : Config) (p : Pipeline)
    (h1 : p.receivers ≠ [])
    (h2 : (p.receivers.all fun ref => (findByName cfg.receivers ref).isSome) = false) :
    validatePipelineReceivers cfg p = .error .pipelineReceiverNotExists := by
  unfold validatePipelineReceivers
  rw [if_neg h1, if_neg (by simp [h2])]

/-- Success shape of the exporter check. -/
theorem validatePipelineExporters_ok (cfg : Config) (p : Pipeline)
    (h1 : p.exporters ≠ [])
    (h2 : (p.exporters.all fun ref => (findByName cfg.exporters ref).isSome) = true) :
    validatePipelineExporters cfg p =
      .ok ({ p with exporters := p.exporters.filter (isEnabledIn cfg.exporters) },
        (p.exporters.filter fun r => !isEnabledIn cfg.exporters r).map
          fun r => ⟨"exporter", p.name, r⟩) := by
  unfold validatePipelineExporters
  rw [if_neg h1, if_pos h2, removeDisabled_eq]

/-- Inversion of a successful exporter check. -/
theorem validatePipelineExporters_ok_inv (cfg : Config) (p q : Pipeline)
    (logs : List LogEntry)
    (h : validatePipelineExporters cfg p = .ok (q, logs)) :
    p.exporters ≠ [] ∧
    (∀ r ∈ p.exporters, (findByName cfg.exporters r).isSome = true) ∧
    q = { p with exporters := p.exporters.filter (isEnabledIn cfg.exporters) } ∧
    logs = (p.exporters.filter fun r => !isEnabledIn cfg.exporters r).map
      fun r => ⟨"exporter", p.name, r⟩ := by
  unfold validatePipelineExporters at h
  split_ifs at h with h1 h2
  · rw [removeDisabled_eq] at h
    simp only [Except.ok.injEq, Prod.mk.injEq] at h
    exact ⟨h1, List.all_eq_true.mp h2, h.1.symm, h.2.symm⟩

/-- The exporter check yields `PipelineMustHaveExporter` exactly on an
empty declared exporter list. -/
theorem validatePipelineExporters_mustHave_iff (cfg : Config) (p : Pipeline) :
    validatePipelineExporters cfg p = .error .pipelineMustHaveExporter ↔
      p.exporters = [] := by
  unfold validatePipelineExporters
  split_ifs with h1 h2 <;> simp [h1]

/-- A non-empty exporter list with an unresolvable reference yields
`PipelineExporterNotExists`. -/
theorem validatePipelineExporters_notExists (cfg : Config) (p : Pipeline)
    (h1 : p.exporters ≠ [])
    (h2 : (p.exporters.all fun ref => (findByName cfg.exporters ref).isSome) = false) :
    validatePipelineExporters cfg p = .error .pipelineExporterNotExists := by
  unfold validatePipelineExporters
  rw [if_neg h1, if_neg (by simp [h2])]

/-- Success shape of the processor check. -/
theorem validatePipelineProcessors_ok (cfg : Config) (p : Pipeline)
    (hT : ¬(p.inputType = tracesDataType ∧ p.processors = []))
    (hM : ¬(p.inputType = metricsDataType ∧ p.processors ≠ []))
    (h2 : (p.processors.all fun ref => (findByName cfg.processors ref).isSome) = true) :
    validatePipelineProcessors cfg p =
      .ok ({ p with processors := p.processors.filter (isEnabledIn cfg.processors) },
        (p.processors.filter fun r => !isEnabledIn cfg.processors r).map
          fun r => ⟨"processor", p.name, r⟩) := by
  unfold validatePipelineProcessors
  rw [if_neg hT, if_neg hM, if_pos h2, removeDisabled_eq]

/-- Inversion of a successful processor check. -/
theorem validatePipelineProcessors_ok_inv (cfg : Config) (p q : Pipeline)
    (logs : List LogEntry)
    (h : validatePipelineProcessors cfg p = .ok (q, logs)) :
    ¬(p.inputType = tracesDataType ∧ p.processors = []) ∧
    ¬(p.inputType = metricsDataType ∧ p.processors ≠ []) ∧
    (∀ r ∈ p.processors, (findByName cfg.processors r).isSome = true) ∧
    q = { p with processors := p.processors.filter (isEnabledIn cfg.processors) } ∧
    logs = (p.processors.filter fun r => !isEnabledIn cfg.processors r).map
      fun r => ⟨"processor", p.name, r⟩ := by
  unfold validatePipelineProcessors at h
  split_ifs at h with hT hM h2
  · rw [removeDisabled_eq] at h
    simp only [Except.ok.injEq, Prod.mk.injEq] at h
    exact ⟨hT, hM, List.all_eq_true.mp h2, h.1.symm, h.2.symm⟩

/-- Inversion of a successful full per-pipeline validation: every field of
the surviving pipeline, and the facts checked along the way. -/
theorem validatePipeline_ok_inv (cfg : Config) (p q : Pipeline) (logs : List LogEntry)
    (h : validatePipeline cfg p = .ok (q, logs)) :
    p.receivers ≠ [] ∧ p.exporters ≠ [] ∧
    (∀ r ∈ p.receivers, (findByName cfg.receivers r).isSome = true) ∧
    (∀ r ∈ p.exporters, (findByName cfg.exporters r).isSome = true) ∧
    (∀ r ∈ p.processors, (findByName cfg.processors r).isSome = true) ∧
    ¬(p.inputType = tracesDataType ∧ p.processors = []) ∧
    ¬(p.inputType = metricsDataType ∧ p.processors ≠ []) ∧
    q.name = p.name ∧ q.inputType = p.inputType ∧
    q.receivers = p.receivers.filter (isEnabledIn cfg.receivers) ∧
    q.exporters = p.exporters.filter (isEnabledIn cfg.exporters) ∧
    q.processors = p.processors.filter (isEnabledIn cfg.processors) := by
  unfold validatePipeline at h
  cases e1 : validatePipelineReceivers cfg p with
  | error e => rw [e1] at h; exact absurd h (by simp)
  | ok v1 =>
    obtain ⟨p1, l1⟩ := v1
    rw [e1] at h
    dsimp only at h
    obtain ⟨hr1, hr2, hq1, -⟩ := validatePipelineReceivers_ok_inv cfg p p1 l1 e1
    cases e2 : validatePipelineExporters cfg p1 with
    | error e => rw [e2] at h; exact absurd h (by simp)
    | ok v2 =>
      obtain ⟨p2, l2⟩ := v2
      rw [e2] at h
      dsimp only at h
      obtain ⟨he1, he2, hq2, -⟩ := validatePipelineExporters_ok_inv cfg p1 p2 l2 e2
      cases e3 : validatePipelineProcessors cfg p2 with
      | error e => rw [e3] at h; exact absurd h (by simp)
      | ok v3 =>
        obtain ⟨p3, l3⟩ := v3
        rw [e3] at h
        dsimp only at h
        obtain ⟨hp1, hp2, hp3, hq3, -⟩ := validatePipelineProcessors_ok_inv cfg p2 p3 l3 e3
        simp only [Except.ok.injEq, Prod.mk.injEq] at h
        subst hq1
        subst hq2
        subst hq3
        obtain ⟨hq, -⟩ := h
        subst hq
        refine ⟨hr1, he1, hr2, he2, hp3, hp1, hp2, rfl, rfl, rfl, rfl, rfl⟩

/-- Every pipeline in a list that the pipelines loop accepts is itself
accepted by `validatePipeline`. -/
theorem validatePipelinesLoop_ok_inv (cfg : Config) :
    ∀ (l : List Pipeline) (ps : List Pipeline) (logs : List LogEntry),
      validatePipelinesLoop cfg l = .ok (ps, logs) →
      ∀ p ∈ l, ∃ q lg, validatePipeline cfg p = .ok (q, lg)
  | [], ps, logs, _, p, hp => by cases hp
  | p0 :: rest, ps, logs, h, p, hp => by
    unfold validatePipelinesLoop at h
    cases e1 : validatePipeline cfg p0 with
    | error e => rw [e1] at h; exact absurd h (by simp)
    | ok v1 =>
      obtain ⟨p1, l1⟩ := v1
      rw [e1] at h
      dsimp only at h
      cases e2 : validatePipelinesLoop cfg rest with
      | error e => rw [e2] at h; exact absurd h (by simp)
      | ok v2 =>
        obtain ⟨ps2, ls2⟩ := v2
        cases hp with
        | head => exact ⟨p1, l1, e1⟩
        | tail _ hmem =>
          exact validatePipelinesLoop_ok_inv cfg rest ps2 ls2 e2 p hmem

/-- A configuration that `validateConfig` accepts has every one of its
pipelines accepted by `validatePipeline` (against the original top-level
maps). -/
theorem validateConfig_ok_inv (cfg : Config) (res : Config) (logs : List LogEntry)
    (h : validateConfig cfg = .ok (res, logs)) :
    ∀ p ∈ cfg.pipelines, ∃ q lg, validatePipeline cfg p = .ok (q, lg) := by
  unfold validateConfig at h
  cases e1 : validatePipelines cfg with
  | error e => rw [e1] at h; exact absurd h (by simp)
  | ok v1 =>
    obtain ⟨ps, ls⟩ := v1
    unfold validatePipelines at e1
    split_ifs at e1 with hlen
    exact validatePipelinesLoop_ok_inv cfg cfg.pipelines ps ls e1

/-- The first component of `splitN2` is the longest slash-free prefix. -/
theorem splitN2_fst : ∀ s : List Char, (splitN2 s).1 = s.takeWhile fun c => c != '/'
  | [] => rfl
  | c :: rest => by
    by_cases h : c = '/'
    · simp [splitN2, h, List.takeWhile_cons]
    · simp [splitN2, h, List.takeWhile_cons, splitN2_fst rest]

/-- The second component of `splitN2` is everything after the first slash
when one exists, so the key is split at most once. -/
theorem splitN2_snd : ∀ s : List Char,
    (splitN2 s).2 =
      if s.any fun c => c == '/' then some ((s.dropWhile fun c => c != '/').drop 1)
      else none
  | [] => rfl
  | c :: rest => by
    by_cases h : c = '/'
    · simp [splitN2, h, List.dropWhile_cons]
    · simp [splitN2, h, List.dropWhile_cons, splitN2_snd rest]

/-- C3: decodeTypeAndName maps the key "opencensus" to
(type "opencensus", fullName "opencensus") and "opencensus/custom" to
(type "opencensus", fullName "opencensus/custom"); it splits at most once
at the first forward slash, trims whitespace on both sides of each part,
and returns an error exactly when the trimmed type part is empty or a
slash was present and the trimmed suffix is empty — so "/x" and
"opencensus/" both fail. -/
theorem claim_C3_main (key : String) :
    decodeTypeAndName "opencensus" = some ("opencensus", "opencensus") ∧
    decodeTypeAndName "opencensus/custom" = some ("opencensus", "opencensus/custom") ∧
    decodeTypeAndName "/x" = none ∧
    decodeTypeAndName "opencensus/" = none ∧
    (decodeTypeAndName key = none ↔
      (trimSpace (key.data.takeWhile fun c => c != '/') = [] ∨
        ((key.data.any fun c => c == '/') = true ∧
          trimSpace ((key.data.dropWhile fun c => c != '/').drop 1) = []))) ∧
    (∀ t f, decodeTypeAndName key = some (t, f) →
      t = (trimSpace (key.data.takeWhile fun c => c != '/')).asString ∧
      ((key.data.any fun c => c == '/') = false → f = t) ∧
      ((key.data.any fun c => c == '/') = true →
        f = (trimSpace (key.data.takeWhile fun c => c != '/') ++
          '/' :: trimSpace ((key.data.dropWhile fun c => c != '/').drop 1)).asString)) := by
  refine ⟨by rfl, by rfl, by rfl, by rfl, ?_, ?_⟩
  · simp only [decodeTypeAndName, splitN2_fst, splitN2_snd]
    cases hs : key.data.any fun c => c == '/' with
    | true =>
      simp only [hs, if_true]
      split_ifs with h1 h2 <;> simp_all [List.drop_one]
    | false =>
      simp only [hs, Bool.false_eq_true, if_false]
      split_ifs with h1 <;> simp_all
  · intro t f h
    simp only [decodeTypeAndName, splitN2_fst, splitN2_snd] at h
    cases hs : key.data.any fun c => c == '/' with
    | true =>
      simp only [hs, if_true] at h
      split_ifs at h with h1 h2
      simp only [Option.some.injEq, Prod.mk.injEq] at h
      refine ⟨h.1.symm, fun hf => by simp [hs] at hf, fun _ => ?_⟩
      rw [← h.2, List.drop_one]
    | false =>
      simp only [hs, Bool.false_eq_true, if_false] at h
      split_ifs at h with h1
      simp only [Option.some.injEq, Prod.mk.injEq] at h
      exact ⟨h.1.symm, fun _ => h.1 ▸ h.2.symm, fun ht => by simp [hs] at ht⟩

/-- A processor list passing the data-type rules but containing an
unresolvable reference yields `PipelineProcessorNotExists`. -/
theorem validatePipelineProcessors_notExists (cfg : Config) (p : Pipeline)
    (hT : ¬(p.inputType = tracesDataType ∧ p.processors = []))
    (hM : ¬(p.inputType = metricsDataType ∧ p.processors ≠ []))
    (h2 : (p.processors.all fun ref => (findByName cfg.processors ref).isSome) = false) :
    validatePipelineProcessors cfg p = .error .pipelineProcessorNotExists := by
  unfold validatePipelineProcessors
  rw [if_neg hT, if_neg hM, if_neg (by simp [h2])]

/-- Once the VM-metrics receiver's stop `Once` has fired, every further
stop call reports `errAlreadyStopped`. -/
theorem vmStopResults_stopped (b : Bool) :
    ∀ n, (VMReceiver.mk b true).stopResults n =
      List.replicate n (some RecvError.alreadyStopped)
  | 0 => rfl
  | n + 1 => by
    simp [VMReceiver.stopResults, VMReceiver.stopMetricsReception,
      vmStopResults_stopped b n, List.replicate]

/-! ### The claims -/

/-- C1 counterexample: `validateConfig` accepts a configuration whose only
pipeline references only a disabled receiver; the pipeline survives with
an empty receiver list instead of failing with PipelineMustHaveReceiver. -/
theorem claim_C1_counterexample :
    validateConfig c1AllDisabledCfg =
      .ok (c1AllDisabledAfter, [⟨"receiver", "t", "r2"⟩]) ∧
    c1AllDisabledAfter.pipelines.map Pipeline.receivers = [[]] := by
  exact ⟨by rfl, by rfl⟩

/-- C1 (amended): the `must have` checks fire exactly when the declared
(pre-filtering) receiver or exporter list is empty, so a validated
configuration guarantees non-empty declared lists; a pipeline whose
declared references are all disabled is accepted with an empty surviving
list (provided the global enabled-receiver/exporter checks pass). -/
theorem claim_C1_main (cfg : Config) (p : Pipeline) :
    (validatePipelineReceivers cfg p = .error .pipelineMustHaveReceiver ↔
      p.receivers = []) ∧
    (validatePipelineExporters cfg p = .error .pipelineMustHaveExporter ↔
      p.exporters = []) ∧
    (∀ res logs, validateConfig cfg = .ok (res, logs) →
      ∀ q ∈ cfg.pipelines, q.receivers ≠ [] ∧ q.exporters ≠ []) := by
  refine ⟨validatePipelineReceivers_mustHave_iff cfg p,
    validatePipelineExporters_mustHave_iff cfg p, ?_⟩
  intro res logs h q hq
  obtain ⟨q1, lg, hok⟩ := validateConfig_ok_inv cfg res logs h q hq
  obtain ⟨h1, h2, -⟩ := validatePipeline_ok_inv cfg q q1 lg hok
  exact ⟨h1, h2⟩

/-- C1 witness: the amended statement applied to a small valid
configuration. -/
theorem claim_C1_witness :
    (Pipeline.mk "m" metricsDataType ["r"] [] ["e"]).receivers ≠ [] ∧
    (Pipeline.mk "m" metricsDataType ["r"] [] ["e"]).exporters ≠ [] :=
  (claim_C1_main c1ValidCfg (Pipeline.mk "m" metricsDataType ["r"] [] ["e"])).2.2
    c1ValidCfg [] (by rfl) (Pipeline.mk "m" metricsDataType ["r"] [] ["e"]) (by decide)

/-- C2 counterexample: on the OpenCensus receiver a second
StartTraceReception after a successful start returns nil, not the
AlreadyStarted signal, and a second StopTraceReception returns nil, not
AlreadyStopped — the public wrappers swallow both signals. -/
theorem claim_C2_counterexample :
    (((OCReceiver.new true true []).startTraceReception).1.startTraceReception).2 = none ∧
    ¬((((OCReceiver.new true true []).startTraceReception).1.startTraceReception).2 =
        some RecvError.alreadyStarted) ∧
    (((OCReceiver.new true true []).stopTraceReception).1.stopTraceReception).2 = none := by
  exact ⟨by rfl, by decide, by rfl⟩

/-- C2 (amended): the idempotence signals hold for the VM-metrics
receiver's public StartMetricsReception / StopMetricsReception (call 2 of
start returns AlreadyStarted; calls 2..N of stop return AlreadyStopped)
and for the OpenCensus receiver's internal once-guarded start/stop
primitives, but the OpenCensus receiver's public Start*/Stop*Reception
wrappers swallow the signals and return nil on redundant calls. -/
theorem claim_C2_main (n : Nat) :
    VMReceiver.new.startResults 2 = [none, some RecvError.alreadyStarted] ∧
    VMReceiver.new.stopResults (n + 1) =
      none :: List.replicate n (some RecvError.alreadyStopped) ∧
    (((OCReceiver.new true true []).stop).1.stop).2 = some RecvError.alreadyStopped ∧
    ((((OCReceiver.new true true []).start).1.registerTraceConsumer)).2 =
      some RecvError.alreadyStarted ∧
    (((OCReceiver.new true true []).startTraceReception).1.startTraceReception).2 = none ∧
    (((OCReceiver.new true true []).stopTraceReception).1.stopTraceReception).2 = none := by
  refine ⟨by rfl, ?_, by rfl, by rfl, by rfl, by rfl⟩
  simp [VMReceiver.new, VMReceiver.stopResults, VMReceiver.stopMetricsReception,
    vmStopResults_stopped]

/-- C2 witness: the amended statement at N = 3 stop calls. -/
theorem claim_C2_witness :
    VMReceiver.new.stopResults 3 =
      [none, some RecvError.alreadyStopped, some RecvError.alreadyStopped] :=
  (claim_C2_main 2).2.1

/-- C3 witness: the trimming and at-most-one-split description applied to
the key "opencensus/custom". -/
theorem claim_C3_witness :
    "opencensus" =
      (trimSpace ((String.data "opencensus/custom").takeWhile fun c => c != '/')).asString ∧
    (((String.data "opencensus/custom").any fun c => c == '/') = false →
      "opencensus/custom" = "opencensus") ∧
    (((String.data "opencensus/custom").any fun c => c == '/') = true →
      "opencensus/custom" =
        (trimSpace ((String.data "opencensus/custom").takeWhile fun c => c != '/') ++
          '/' :: trimSpace (((String.data "opencensus/custom").dropWhile
            fun c => c != '/').drop 1)).asString) :=
  (claim_C3_main "opencensus/custom").2.2.2.2.2 "opencensus" "opencensus/custom" (by rfl)

/-- C4: validation rejects a traces pipeline with an empty processor list
with PipelineMustHaveProcessors and a metrics pipeline with a non-empty
processor list with MetricPipelineCannotHaveProcessors; a traces pipeline
with at least one processor and a metrics pipeline with zero processors
pass this check. -/
theorem claim_C4_main (cfg : Config) (p : Pipeline) :
    (p.inputType = tracesDataType → p.processors = [] →
      validatePipelineProcessors cfg p = .error .pipelineMustHaveProcessors) ∧
    (p.inputType = metricsDataType → p.processors ≠ [] →
      validatePipelineProcessors cfg p = .error .metricPipelineCannotHaveProcessors) ∧
    (p.inputType = tracesDataType → p.processors ≠ [] →
      validatePipelineProcessors cfg p ≠ .error .pipelineMustHaveProcessors ∧
      validatePipelineProcessors cfg p ≠ .error .metricPipelineCannotHaveProcessors) ∧
    (p.inputType = metricsDataType → p.processors = [] →
      validatePipelineProcessors cfg p = .ok (p, [])) := by
  refine ⟨?_, ?_, ?_, ?_⟩
  · intro h1 h2
    unfold validatePipelineProcessors
    rw [if_pos ⟨h1, h2⟩]
  · intro h1 h2
    unfold validatePipelineProcessors
    rw [if_neg (by simp [h1, tracesDataType, metricsDataType]), if_pos ⟨h1, h2⟩]
  · intro h1 h2
    unfold validatePipelineProcessors
    rw [if_neg (by simp [h2]), if_neg (by simp [h1, tracesDataType, metricsDataType])]
    split_ifs <;> simp
  · intro h1 h2
    obtain ⟨nm, it, rs, ps, es⟩ := p
    simp only at h1 h2
    subst h1
    subst h2
    simp [validatePipelineProcessors, tracesDataType, metricsDataType,
      removeDisabled, removeDisabledLoop]

/-- C4 witness: the four cases at concrete pipelines. -/
theorem claim_C4_witness :
    validatePipelineProcessors ⟨[], [], [], []⟩
        ⟨"t", tracesDataType, ["r"], [], ["e"]⟩ = .error .pipelineMustHaveProcessors ∧
    validatePipelineProcessors ⟨[], [], [], []⟩
        ⟨"m", metricsDataType, ["r"], ["b"], ["e"]⟩ =
      .error .metricPipelineCannotHaveProcessors ∧
    validatePipelineProcessors ⟨[], [], [], []⟩
        ⟨"m2", metricsDataType, ["r"], [], ["e"]⟩ =
      .ok (⟨"m2", metricsDataType, ["r"], [], ["e"]⟩, []) :=
  ⟨(claim_C4_main ⟨[], [], [], []⟩ ⟨"t", tracesDataType, ["r"], [], ["e"]⟩).1 rfl rfl,
   (claim_C4_main ⟨[], [], [], []⟩ ⟨"m", metricsDataType, ["r"], ["b"], ["e"]⟩).2.1 rfl
     (by decide),
   (claim_C4_main ⟨[], [], [], []⟩ ⟨"m2", metricsDataType, ["r"], [], ["e"]⟩).2.2.2 rfl rfl⟩

/-- C5: a pipeline reference to an undefined receiver, processor, or
exporter name makes validation fail with PipelineReceiverNotExists,
PipelineProcessorNotExists, or PipelineExporterNotExists respectively
(once the checks preceding it in the same function pass); and whenever
`validateConfig` succeeds, every reference of every pipeline resolves in
the corresponding original top-level map. -/
theorem claim_C5_main (cfg : Config) (p : Pipeline) :
    (p.receivers ≠ [] →
      (p.receivers.all fun ref => (findByName cfg.receivers ref).isSome) = false →
      validatePipelineReceivers cfg p = .error .pipelineReceiverNotExists) ∧
    (p.exporters ≠ [] →
      (p.exporters.all fun ref => (findByName cfg.exporters ref).isSome) = false →
      validatePipelineExporters cfg p = .error .pipelineExporterNotExists) ∧
    (¬(p.inputType = tracesDataType ∧ p.processors = []) →
      ¬(p.inputType = metricsDataType ∧ p.processors ≠ []) →
      (p.processors.all fun ref => (findByName cfg.processors ref).isSome) = false →
      validatePipelineProcessors cfg p = .error .pipelineProcessorNotExists) ∧
    (∀ res logs, validateConfig cfg = .ok (res, logs) →
      ∀ q ∈ cfg.pipelines,
        (∀ r ∈ q.receivers, (findByName cfg.receivers r).isSome = true) ∧
        (∀ r ∈ q.exporters, (findByName cfg.exporters r).isSome = true) ∧
        (∀ r ∈ q.processors, (findByName cfg.processors r).isSome = true)) := by
  refine ⟨validatePipelineReceivers_notExists cfg p,
    validatePipelineExporters_notExists cfg p,
    validatePipelineProcessors_notExists cfg p, ?_⟩
  intro res logs h q hq
  obtain ⟨q1, lg, hok⟩ := validateConfig_ok_inv cfg res logs h q hq
  obtain ⟨-, -, h1, h2, h3, -⟩ := validatePipeline_ok_inv cfg q q1 lg hok
  exact ⟨h1, h2, h3⟩

/-- C5 witness: a dangling receiver reference at a concrete input, and the
resolution guarantee on a concrete accepted configuration. -/
theorem claim_C5_witness :
    validatePipelineReceivers ⟨[("r", ⟨"opencensus", "r", false⟩)], [], [], []⟩
        ⟨"t", tracesDataType, ["missing"], ["b"], ["e"]⟩ =
      .error .pipelineReceiverNotExists ∧
    (∀ r ∈ (Pipeline.mk "m" metricsDataType ["r"] [] ["e"]).receivers,
      (findByName c1ValidCfg.receivers r).isSome = true) :=
  ⟨(claim_C5_main ⟨[("r", ⟨"opencensus", "r", false⟩)], [], [], []⟩
      ⟨"t", tracesDataType, ["missing"], ["b"], ["e"]⟩).1 (by decide) (by decide),
   ((claim_C5_main c1ValidCfg (Pipeline.mk "m" metricsDataType ["r"] [] ["e"])).2.2.2
      c1ValidCfg [] (by rfl) (Pipeline.mk "m" metricsDataType ["r"] [] ["e"]) (by decide)).1⟩

/-- C6: with exporters a (enabled) and b (disabled) and a pipeline listing
[a, b], validation succeeds, the pipeline's exporter list afterwards is
[a], and an informational log entry records the dropped disabled
reference; a disabled-but-defined reference never makes the exporter
check fail. -/
theorem claim_C6_main :
    validateConfig c6Cfg = .ok (c6After, [⟨"exporter", "m", "b"⟩]) ∧
    c6After.pipelines.map Pipeline.exporters = [["a"]] ∧
    (∀ cfg p, p.exporters ≠ [] →
      (p.exporters.all fun ref => (findByName cfg.exporters ref).isSome) = true →
      ∃ q logs, validatePipelineExporters cfg p = .ok (q, logs)) := by
  refine ⟨by rfl, by rfl, ?_⟩
  intro cfg p h1 h2
  exact ⟨_, _, validatePipelineExporters_ok cfg p h1 h2⟩

/-- C6 witness: the never-fails clause applied to a pipeline referencing
one enabled and one disabled exporter. -/
theorem claim_C6_witness :
    (validatePipelineExporters
      ⟨[], [("a", ⟨"logging", "a", false⟩), ("b", ⟨"logging", "b", true⟩)], [], []⟩
      ⟨"w", metricsDataType, ["r"], [], ["a", "b"]⟩).isOk = true := by
  obtain ⟨q, logs, h⟩ := claim_C6_main.2.2
    ⟨[], [("a", ⟨"logging", "a", false⟩), ("b", ⟨"logging", "b", true⟩)], [], []⟩
    ⟨"w", metricsDataType, ["r"], [], ["a", "b"]⟩ (by decide) (by decide)
  rw [h]
  rfl

/-- C7: the OpenCensus receiver's HTTP handler is wrapped with a CORS
filter exactly when the configured allowed-origin list is non-empty; with
an empty list the handler is the bare gateway mux. -/
theorem claim_C7_main (r : OCReceiver) (h : r.serverHTTP = none) :
    ((r.httpServer).2.hasCORSFilter = true ↔ r.corsOrigins ≠ []) ∧
    (r.corsOrigins ≠ [] →
      (r.httpServer).2 = Handler.corsFilter r.corsOrigins Handler.gatewayMux) ∧
    (r.corsOrigins = [] → (r.httpServer).2 = Handler.gatewayMux) ∧
    (∀ tc mc origins, (OCReceiver.new tc mc origins).serverHTTP = none ∧
      (OCReceiver.new tc mc origins).corsOrigins = origins) := by
  refine ⟨?_, ?_, ?_, fun tc mc origins => ⟨rfl, rfl⟩⟩ <;>
    · unfold OCReceiver.httpServer
      rw [h]
      cases hc : r.corsOrigins with
      | nil => simp [Handler.hasCORSFilter]
      | cons a as => simp [Handler.hasCORSFilter]

/-- C7 witness: a receiver configured with one allowed origin gets the
CORS-wrapped handler; one with no origins gets the bare mux. -/
theorem claim_C7_witness :
    ((OCReceiver.mk true true false false false false ["https://x"] none).httpServer).2 =
      Handler.corsFilter ["https://x"] Handler.gatewayMux ∧
    ((OCReceiver.mk true true false false false false [] none).httpServer).2 =
      Handler.gatewayMux :=
  ⟨(claim_C7_main (OCReceiver.mk true true false false false false ["https://x"] none)
      rfl).2.1 (by decide),
   (claim_C7_main (OCReceiver.mk true true false false false false [] none)
      rfl).2.2.1 rfl⟩

/-- C8: the OpenCensus receiver's public StopTraceReception and
StopMetricsReception return nil on every call, first and repeated: the
internal stop only ever returns the already-stopped signal or nil, and
both public wrappers map the already-stopped signal to nil. -/
theorem claim_C8_main (r : OCReceiver) :
    (r.stopTraceReception).2 = none ∧
    (r.stopMetricsReception).2 = none ∧
    ((r.stop).2 = none ∨ (r.stop).2 = some RecvError.alreadyStopped) := by
  cases hd : r.stopDone with
  | true =>
    simp [OCReceiver.stopTraceReception, OCReceiver.stopMetricsReception,
      OCReceiver.stop, hd]
  | false =>
    simp [OCReceiver.stopTraceReception, OCReceiver.stopMetricsReception,
      OCReceiver.stop, hd]

/-- C8 witness: the guarantee at a freshly constructed receiver. -/
theorem claim_C8_witness :
    ((OCReceiver.new true false ["https://x"]).stopTraceReception).2 = none :=
  (claim_C8_main (OCReceiver.new true false ["https://x"])).1

/-- C9: GetString reaches its panic branch for every DataType other than
TracesDataType and MetricsDataType, and the pipeline-type switch of
loadPipelines only ever produces TracesDataType or MetricsDataType, whose
GetString never panics. -/
theorem claim_C9_main (dt : Nat) (s : String) :
    (dt ≠ tracesDataType → dt ≠ metricsDataType → getString dt = none) ∧
    (∀ t, pipelineInputTypeFor s = some t → (getString t).isSome = true) ∧
    (pipelineInputTypeFor s = none ∨
      pipelineInputTypeFor s = some tracesDataType ∨
      pipelineInputTypeFor s = some metricsDataType) := by
  refine ⟨?_, ?_, ?_⟩
  · intro h1 h2
    unfold getString
    rw [if_neg h1, if_neg h2]
  · intro t ht
    unfold pipelineInputTypeFor at ht
    split_ifs at ht <;> simp only [Option.some.injEq] at ht <;> subst ht <;> rfl
  · unfold pipelineInputTypeFor
    split_ifs <;> simp

/-- C9 witness: DataType 0 (the skipped iota value) panics; the traces
switch result never does. -/
theorem claim_C9_witness :
    getString 0 = none ∧ (getString tracesDataType).isSome = true :=
  ⟨(claim_C9_main 0 "traces").1 (by decide) (by decide),
   (claim_C9_main 0 "traces").2.1 tracesDataType rfl⟩

/-- C10: pruning of disabled references during per-pipeline validation is
order-preserving and touches nothing else: each surviving list is exactly
the enabled-name filter (hence a subsequence) of the original list, the
enabled names are never removed, and the pipeline's name and input type
are untouched. -/
theorem claim_C10_main (cfg : Config) (p q : Pipeline) (logs : List LogEntry)
    (h : validatePipeline cfg p = .ok (q, logs)) :
    q.name = p.name ∧ q.inputType = p.inputType ∧
    q.receivers = p.receivers.filter (isEnabledIn cfg.receivers) ∧
    q.processors = p.processors.filter (isEnabledIn cfg.processors) ∧
    q.exporters = p.exporters.filter (isEnabledIn cfg.exporters) ∧
    q.receivers.Sublist p.receivers ∧
    q.processors.Sublist p.processors ∧
    q.exporters.Sublist p.exporters ∧
    (∀ r ∈ p.receivers, isEnabledIn cfg.receivers r = true → r ∈ q.receivers) ∧
    (∀ r ∈ p.processors, isEnabledIn cfg.processors r = true → r ∈ q.processors) ∧
    (∀ r ∈ p.exporters, isEnabledIn cfg.exporters r = true → r ∈ q.exporters) := by
  obtain ⟨-, -, -, -, -, -, -, hn, hi, hr, he, hp⟩ :=
    validatePipeline_ok_inv cfg p q logs h
  refine ⟨hn, hi, hr, hp, he, ?_, ?_, ?_, ?_, ?_, ?_⟩
  · rw [hr]; exact List.filter_sublist _
  · rw [hp]; exact List.filter_sublist _
  · rw [he]; exact List.filter_sublist _
  · intro r hm hen
    rw [hr]; exact List.mem_filter.mpr ⟨hm, hen⟩
  · intro r hm hen
    rw [hp]; exact List.mem_filter.mpr ⟨hm, hen⟩
  · intro r hm hen
    rw [he]; exact List.mem_filter.mpr ⟨hm, hen⟩

/-- C10 witness: the filter characterization at a pipeline with one
enabled and one disabled exporter. -/
theorem claim_C10_witness :
    (Pipeline.mk "m" metricsDataType ["r"] [] ["a"]).exporters =
      (Pipeline.mk "m" metricsDataType ["r"] [] ["a", "b"]).exporters.filter
        (isEnabledIn [("a", ⟨"logging", "a", false⟩), ("b", ⟨"logging", "b", true⟩)]) :=
  (claim_C10_main
    ⟨[("r", ⟨"opencensus", "r", false⟩)],
     [("a", ⟨"logging", "a", false⟩), ("b", ⟨"logging", "b", true⟩)], [], []⟩
    (Pipeline.mk "m" metricsDataType ["r"] [] ["a", "b"])
    (Pipeline.mk "m" metricsDataType ["r"] [] ["a"])
    [⟨"exporter", "m", "b"⟩] (by rfl)).2.2.2.2.1

end Otel
